import Mathlib

set_option maxRecDepth 100000

/-!
Shallow embedding of the EmpathyAI understanding-and-response pipeline.

Sources embedded (file, function):
* `src/llm_response.py` — `GeminiClient.generate_response`, `_fallback_response`,
  `check_api_health` (namespace `Gemini`);
* `src/response_generator.py` — `EmpathyResponseGenerator.generate_response`,
  `_extract_primary_emotion`, `_build_prompt`, `_validate_and_enhance_response`,
  `_get_template_response`, `_calculate_response_confidence`, `_fallback_response`
  (namespace `RespGen`);
* `src/sentiment_fusion.py` — `SentimentFusion._combine_sentiments` (namespace `Fusion`);
* `src/emotion.py` — `EmotionDetector.detect_emotion` (namespace `Emotion`);
* `src/memory.py` — `MemoryManager._add_to_sqlite`, `_add_to_sheets`,
  `_get_from_sqlite`, `get_emotion_patterns` (namespace `Memory`).

Python strings are modelled as Lean `String` (a list of Unicode code points, which
is what Python `len`/slicing count); Python floats as `ℚ`; Python `str.lower` as
`Char.toLower` (the texts involved are ASCII apart from emoji, which both leave
unchanged); fallible external calls (the generative model, the classifier
pipelines) as explicit oracles passed in as functions.  Note that
`src/llm_response.py` stores its emoji as mojibake (e.g. the blue heart appears in
the file as the four code points U+00F0 U+0178 U+2019 U+2122); the embedding
reproduces exactly those code points, while `src/response_generator.py` contains
genuine emoji.
-/

/-- Python `sub in s` (substring containment) on lists of characters. -/
def containsSub (hay needle : List Char) : Bool := decide (needle <:+: hay)

/-- Python `str.lower` applied pointwise (ASCII case folding). -/
def lowerL (l : List Char) : List Char := l.map Char.toLower

/-- The characters Python `str.strip()` removes by default. -/
def pyWs (c : Char) : Bool :=
  c == ' ' || c == '\t' || c == '\n' || c == '\r' || c == '\x0b' || c == '\x0c'

/-- Python `str.strip()`: drop leading and trailing whitespace. -/
def pyStrip (l : List Char) : List Char := List.rdropWhile pyWs (l.dropWhile pyWs)

/-- `pyStrip` lifted to `String`. -/
def pyStripS (s : String) : String := String.mk (pyStrip s.data)

/-- Does any of the given (already lower-case) keywords occur in the text?
Models `any(word in text_lower for word in [...])`. -/
def containsAnyWord (textLower : List Char) (words : List String) : Bool :=
  words.any (fun w => containsSub textLower w.data)

namespace Gemini

/- The five keyword sets of `GeminiClient._fallback_response`
(`src/llm_response.py` lines 110-122), in source order. -/

def sadWords : List String := ["sad", "depressed", "down", "upset"]

def angryWords : List String := ["angry", "frustrated", "mad", "annoyed"]

def anxiousWords : List String := ["anxious", "worried", "nervous", "stressed"]

def happyWords : List String := ["happy", "excited", "joyful", "great", "wonderful"]

def tiredWords : List String := ["tired", "exhausted", "drained", "overwhelmed"]

/- The six canned replies of `_fallback_response`, byte-for-byte as stored in
`src/llm_response.py` (the trailing "emoji" are the file's mojibake code points). -/

def fallback_sad : String :=
  "I understand you're going through a tough time. It's okay to feel sad sometimes - these feelings are valid and temporary. Would you like to talk more about what's bothering you? ðŸ’™"

def fallback_angry : String :=
  "It sounds like you're feeling frustrated right now. That's completely understandable. Take a deep breath with me. Sometimes talking through what's making us angry can help. I'm here to listen. ðŸ«‚"

def fallback_anxious : String :=
  "I can sense you're feeling anxious. Anxiety can be overwhelming, but you're not alone in this. Try taking some slow, deep breaths. What's one thing that usually helps you feel calmer? ðŸŒ¸"

def fallback_happy : String :=
  "I'm so glad to hear you're feeling positive! It's wonderful when we experience joy. What's been the highlight of your day? I'd love to celebrate this moment with you! âœ¨"

def fallback_tired : String :=
  "You sound really tired right now. It's important to acknowledge when we need rest. Have you been taking care of yourself lately? Sometimes we need to slow down and recharge. ðŸŒ™"

def fallback_default : String :=
  "Thank you for sharing with me. I'm here to listen and support you through whatever you're experiencing. Your feelings matter, and you're not alone. How can I help you today? ðŸ¤—"

/-- `GeminiClient._fallback_response` (`src/llm_response.py` lines 105-126):
case-insensitive keyword match against the five sets in source order, generic
supportive message when none match. -/
def fallback_response (prompt : String) : String :=
  let text_lower := lowerL prompt.data
  if containsAnyWord text_lower sadWords then fallback_sad
  else if containsAnyWord text_lower angryWords then fallback_angry
  else if containsAnyWord text_lower anxiousWords then fallback_anxious
  else if containsAnyWord text_lower happyWords then fallback_happy
  else if containsAnyWord text_lower tiredWords then fallback_tired
  else fallback_default

/-- Outcome of one remote `model.generate_content` call: a returned text
(`ret`, possibly empty, which Python treats as falsy) or a raised exception. -/
inductive Attempt where
  | ret (s : String)
  | raise
deriving DecidableEq

/-- Did this attempt fail (empty text or exception)? -/
def Attempt.failed : Attempt → Bool
  | .ret s => s == ""
  | .raise => true

/-- Did this attempt raise an exception? -/
def Attempt.isRaise : Attempt → Bool
  | .ret _ => false
  | .raise => true

/-- The retry loop of `GeminiClient.generate_response` (`src/llm_response.py`
lines 71-92).  `backend i` is the outcome of the attempt with loop index `i`;
`fuel` is the number of attempts left.  Returns the successful (stripped) text
if any, together with the number of backend calls made and the list of backoff
sleeps (in seconds) performed, in order.  A non-empty result returns
immediately; an empty result is retried with no sleep; an exception is retried
after `2 ^ attempt` seconds unless the attempt was the last one. -/
def genLoop (backend : Nat → Attempt) : Nat → Nat → Option String × Nat × List Nat
  | _, 0 => (none, 0, [])
  | attempt, r + 1 =>
    match backend attempt with
    | .ret s =>
      if s == "" then
        let rest := genLoop backend (attempt + 1) r
        (rest.1, rest.2.1 + 1, rest.2.2)
      else (some (pyStripS s), 1, [])
    | .raise =>
      let rest := genLoop backend (attempt + 1) r
      (rest.1, rest.2.1 + 1, (if 1 ≤ r then [2 ^ attempt] else []) ++ rest.2.2)

/-- Result of a `generate_response` call together with its observable
side-effect traces. -/
structure GenTrace where
  result : String
  calls : Nat
  sleeps : List Nat
deriving DecidableEq

/-- `GeminiClient.generate_response` (`src/llm_response.py` lines 53-92).
`configured` models `self.model` being non-`None`.  When unconfigured the
deterministic fallback is returned with no backend call and no sleep; otherwise
the retry loop runs and the fallback is returned if it exhausts all attempts.
(The 1-second rate-gate sleep before the loop is not part of these traces.) -/
def generate_response (configured : Bool) (backend : Nat → Attempt)
    (max_retries : Nat) (prompt : String) : GenTrace :=
  if configured then
    let r := genLoop backend 0 max_retries
    ⟨r.1.getD (fallback_response prompt), r.2.1, r.2.2⟩
  else ⟨fallback_response prompt, 0, []⟩

/-- `check_api_health` (`src/llm_response.py` lines 152-168): probe with prompt
"Hello" and `max_retries = 1`; available iff the response is non-empty and does
not contain the substring "fallback" (case-insensitively). -/
def check_api_health (configured : Bool) (backend : Nat → Attempt) : Bool × String :=
  if configured then
    let resp := (generate_response true backend 1 "Hello").result
    let is_working := decide (0 < resp.length) && !containsSub (lowerL resp.data) "fallback".data
    (is_working, if is_working then "API working" else "API not responding properly")
  else (false, "Client not initialized")

end Gemini

namespace RespGen

/- System prompt templates of `_load_system_prompts` (`src/response_generator.py`
lines 19-46), split at the single `{emotion}` placeholder that
`_build_prompt` fills via `str.format`. -/

def sys_default_pre : String := "You are EmpathyAI, a compassionate mental health companion. \n                         Respond with warmth, understanding, and genuine care. \n                         Keep responses under 120 words. Be supportive but not clinical.\n                         Use gentle, encouraging language. Acknowledge emotions: "

def sys_default_post : String := "."

def sys_sadness_pre : String := "You are EmpathyAI, speaking to someone feeling sad or down.\n                         Show deep empathy and validation. Offer gentle comfort and hope.\n                         Remind them that sadness is temporary and they're not alone.\n                         Keep under 120 words. Emotion context: "

def sys_sadness_post : String := "."

def sys_anger_pre : String := "You are EmpathyAI, helping someone process anger or frustration.\n                        Validate their feelings without encouraging harmful actions.\n                        Help them find healthy ways to express and process anger.\n                        Stay calm and grounding. Keep under 120 words. Emotion: "

def sys_anger_post : String := "."

def sys_fear_pre : String := "You are EmpathyAI, supporting someone experiencing fear or anxiety.\n                       Offer reassurance and practical coping strategies.\n                       Help them feel safe and grounded in the present moment.\n                       Use calming, confident language. Under 120 words. Emotion: "

def sys_fear_post : String := "."

def sys_joy_pre : String := "You are EmpathyAI, celebrating positive emotions with someone.\n                      Share in their happiness and help them savor the moment.\n                      Encourage them to appreciate and remember this feeling.\n                      Be warm and uplifting. Keep under 120 words. Emotion: "

def sys_joy_post : String := "."

/- Canned template replies of `_load_response_templates`
(`src/response_generator.py` lines 48-76). -/

def templates_sadness : List String :=
  ["I can hear the sadness in your words, and I want you to know that it's okay to feel this way. Your emotions are valid, and you don't have to go through this alone. 💙",
   "It sounds like you're carrying some heavy feelings right now. Remember that sadness, while painful, is also a sign of your capacity to care deeply. I'm here with you. 🫂",
   "I see you're going through a difficult time. Please be gentle with yourself. These feelings won't last forever, even though they feel overwhelming right now. 🌸"]

def templates_anger : List String :=
  ["I can sense your frustration, and those feelings are completely valid. It's human to feel angry sometimes. Let's take a moment to breathe together. 🌱",
   "Your anger is telling you something important about what matters to you. Let's explore what's underneath these feelings in a safe way. 💚",
   "I hear how upset you are. It takes courage to express difficult emotions. You're doing the right thing by talking about it instead of keeping it inside. 🤗"]

def templates_fear : List String :=
  ["I can feel your worry, and I want you to know that you're safe here with me. Fear can be overwhelming, but you're braver than you think. 🦋",
   "Anxiety can make everything feel uncertain, but remember: you've faced difficult moments before and you're still here. That's strength. 🌟",
   "Your fears are real and valid. Let's take this one breath at a time. You don't have to face this alone. I'm right here with you. 🫧"]

def templates_joy : List String :=
  ["I can feel your happiness radiating through your words! It's wonderful to witness your joy. Please take a moment to really savor this feeling. ✨",
   "Your positive energy is infectious! I'm so glad you're experiencing this happiness. You deserve these beautiful moments. 🌻",
   "What a delightful thing to hear! Your joy reminds me of all the good that exists in the world. Thank you for sharing this brightness. ☀️"]

def templates_neutral : List String :=
  ["I'm here and I'm listening. Whatever you're going through, you don't have to face it alone. Your feelings matter. 🤗",
   "Thank you for trusting me with your thoughts. I'm honored to be part of your journey, whatever it may bring. 💜",
   "I hear you, and I'm with you in this moment. Sometimes just being acknowledged is enough. How are you really doing? 🌙"]

/-- The dictionary lookup `self.response_templates.get(emotion, self.response_templates["neutral"])`
performed by `_get_template_response` (`src/response_generator.py` line 203). -/
def response_templates (emotion : String) : List String :=
  if emotion == "sadness" then templates_sadness
  else if emotion == "anger" then templates_anger
  else if emotion == "fear" then templates_fear
  else if emotion == "joy" then templates_joy
  else if emotion == "neutral" then templates_neutral
  else templates_neutral

/-- `_get_template_response` (`src/response_generator.py` lines 200-204).
`random.choice` is modelled by an explicit choice index `k`, reduced modulo the
length of the template list; the result is always a member of that list. -/
def get_template_response (emotion : String) (k : Nat) : String :=
  (response_templates emotion).getD (k % (response_templates emotion).length) ""

/-- The denylist of `_validate_and_enhance_response`
(`src/response_generator.py` lines 184-187). -/
def inappropriate_phrases : List String :=
  ["i'm just an ai", "i'm not a therapist", "seek professional help immediately",
   "i can't help with that", "that's not my job"]

/-- Does the (lower-cased) text contain any denylisted phrase?  Models
`any(phrase in response_lower for phrase in inappropriate_phrases)`. -/
def containsAnyPhrase (s : String) : Bool :=
  inappropriate_phrases.any (fun p => containsSub (lowerL s.data) p.data)

/-- Python `response.split(". ")` on code points: split on the two-character
separator, scanning left to right. -/
def pySplit : List Char → List (List Char)
  | [] => [[]]
  | [c] => [[c]]
  | c :: d :: rest =>
    if c = '.' ∧ d = ' ' then [] :: pySplit rest
    else List.modifyHead (fun p => c :: p) (pySplit (d :: rest))

/-- Python `". ".join(parts)`. -/
def pyJoin : List (List Char) → List Char
  | [] => []
  | [p] => p
  | p :: ps => p ++ '.' :: ' ' :: pyJoin ps

/-- The truncation `". ".join(response.split(". ")[:2]) + "."` applied by
`_validate_and_enhance_response` to over-long results
(`src/response_generator.py` lines 194-196). -/
def truncTwo (l : List Char) : List Char :=
  pyJoin ((pySplit l).take 2) ++ ['.']

/-- `_validate_and_enhance_response` (`src/response_generator.py` lines 178-198):
an empty result, a result whose trimmed length is under 10, or a result
containing a denylisted phrase is replaced by a canned template for the
emotion; a result longer than 200 code points is truncated to its first two
sentences; the survivor is returned stripped. -/
def validate_and_enhance_response (response : String) (emotion : String) (k : Nat) : String :=
  if response == "" || (pyStrip response.data).length < 10 then
    get_template_response emotion k
  else if containsAnyPhrase response then
    get_template_response emotion k
  else if 200 < response.length then
    String.mk (pyStrip (truncTwo response.data))
  else
    String.mk (pyStrip response.data)

/-- The table of `_extract_primary_emotion` (`src/response_generator.py`
lines 130-142). -/
def emotion_mapping : List (String × String) :=
  [("sadness", "sadness"), ("anger", "anger"), ("fear", "fear"),
   ("anxiety", "fear"), ("joy", "joy"), ("happiness", "joy"),
   ("surprise", "neutral"), ("disgust", "anger"), ("love", "joy"),
   ("optimism", "joy"), ("pessimism", "sadness")]

/-- `_extract_primary_emotion` (`src/response_generator.py` lines 117-144):
lower-case the fused label, split on "-", take the last part (which is also the
only part when there is no separator), and map it through the fixed table with
default "neutral". -/
def extract_primary_emotion (fused_emotion : String) : String :=
  if fused_emotion == "" then "neutral"
  else
    let parts := List.splitOn '-' (lowerL fused_emotion.data)
    let emotion := String.mk (parts.getLastD [])
    (emotion_mapping.lookup emotion).getD "neutral"

/-- The dictionary lookup `self.system_prompts.get(primary_emotion, self.system_prompts["default"])`
followed by `.format(emotion=fused_emotion)` (`src/response_generator.py`
lines 149-150). -/
def system_prompt_for (primary fused : String) : String :=
  if primary == "sadness" then sys_sadness_pre ++ fused ++ sys_sadness_post
  else if primary == "anger" then sys_anger_pre ++ fused ++ sys_anger_post
  else if primary == "fear" then sys_fear_pre ++ fused ++ sys_fear_post
  else if primary == "joy" then sys_joy_pre ++ fused ++ sys_joy_post
  else sys_default_pre ++ fused ++ sys_default_post

/-- One line of the history block:
`f"{i}. User: {item.get('user', '')}, AI: {item.get('ai', '')}\n"`
(`src/response_generator.py` line 159).  History items are (user, ai) pairs. -/
def history_line (i : Nat) (item : String × String) : String :=
  toString i ++ ". User: " ++ item.1 ++ ", AI: " ++ item.2 ++ "\n"

/-- The history block of `_build_prompt` (`src/response_generator.py`
lines 153-159): empty when there is no history, otherwise a header followed by
one numbered line for each of the last three interactions. -/
def history_context (history : List (String × String)) : String :=
  if history.isEmpty then ""
  else
    let recent := history.drop (history.length - 3)
    "\n\nRecent conversation context:\n" ++
      String.join ((recent.enum.map (fun p => history_line (p.1 + 1) p.2)))

/-- `_build_prompt` (`src/response_generator.py` lines 146-176). -/
def build_prompt (user_text fused_emotion primary_emotion : String)
    (history : List (String × String)) : String :=
  system_prompt_for primary_emotion fused_emotion ++ "\n\n" ++
    history_context history ++
    "\n\nCurrent user message: \"" ++ user_text ++
    "\"\n\nPlease respond with empathy, understanding, and genuine care. Focus on:\n1. Acknowledging their emotional state (" ++
    fused_emotion ++
    ")\n2. Providing appropriate support and validation\n3. Being warm but not overly clinical\n4. Keeping response under 120 words\n\nResponse:"

/-- The keyword table of `_calculate_response_confidence`
(`src/response_generator.py` lines 215-220). -/
def emotion_keywords (emotion : String) : List String :=
  if emotion == "sadness" then ["sad", "difficult", "understand", "support", "comfort"]
  else if emotion == "anger" then ["frustrated", "angry", "valid", "breath", "calm"]
  else if emotion == "fear" then ["anxiety", "worry", "safe", "brave", "strength"]
  else if emotion == "joy" then ["happy", "wonderful", "celebrate", "joy", "bright"]
  else []

/-- `_calculate_response_confidence` (`src/response_generator.py` lines 206-226):
0.7, plus 0.1 when the response exceeds 50 code points, plus 0.1 when any
emotion-specific keyword occurs in the lower-cased response, capped at 1.0.
Note the lookup key is the raw second argument (the caller passes the fused
label, not the primary emotion). -/
def calculate_response_confidence (response : String) (emotion : String) : ℚ :=
  let base0 : ℚ := 0.7
  let base1 : ℚ := if 50 < response.length then base0 + 0.1 else base0
  let kws := emotion_keywords emotion
  let base2 : ℚ :=
    if !kws.isEmpty && containsAnyWord (lowerL response.data) kws then base1 + 0.1 else base1
  if base2 ≤ 1.0 then base2 else 1.0

/-- The result dictionary of `EmpathyResponseGenerator.generate_response`
(`src/response_generator.py` lines 105-111 and 233-239). -/
structure GenResult where
  response : String
  emotion_detected : String
  primary_emotion : String
  generation_method : String
  confidence : ℚ
deriving DecidableEq

/-- `EmpathyResponseGenerator._fallback_response` (`src/response_generator.py`
lines 228-239): the `except` branch of `generate_response`. -/
def fallback_response_gen (user_text fused_emotion : String) (k : Nat) : GenResult :=
  let primary := extract_primary_emotion fused_emotion
  { response := get_template_response primary k
    emotion_detected := fused_emotion
    primary_emotion := primary
    generation_method := "fallback_template"
    confidence := 0.5 }

/-- The normal path (steps 1-7) of `EmpathyResponseGenerator.generate_response`
(`src/response_generator.py` lines 90-111): extract the primary emotion, build
the prompt, call `ask_gemini` (the Gemini client with `max_retries = 3`),
validate the result, and report `generation_method` as "llm" unless the
returned text contains the substring "fallback". -/
def generate_response (configured : Bool) (backend : Nat → Gemini.Attempt)
    (user_text fused_emotion : String) (history : List (String × String))
    (k : Nat) : GenResult :=
  let primary := extract_primary_emotion fused_emotion
  let prompt := build_prompt user_text fused_emotion primary history
  let llm_response := (Gemini.generate_response configured backend 3 prompt).result
  let final := validate_and_enhance_response llm_response primary k
  { response := final
    emotion_detected := fused_emotion
    primary_emotion := primary
    generation_method :=
      if !containsSub (lowerL llm_response.data) "fallback".data then "llm" else "template"
    confidence := calculate_response_confidence final fused_emotion }

end RespGen

namespace Fusion

/-- One scorer's reduced output (`{"label": ..., "confidence": ...}`) as built by
`_get_base_sentiment` / `_get_nuanced_sentiment` (`src/sentiment_fusion.py`
lines 78-110). -/
structure SentimentScore where
  label : String
  confidence : ℚ
deriving DecidableEq

/-- `SentimentFusion._combine_sentiments` (`src/sentiment_fusion.py`
lines 112-129). -/
def combine_sentiments (base nuanced : SentimentScore) : String :=
  if (0.8 : ℚ) < base.confidence then base.label
  else if (0.8 : ℚ) < nuanced.confidence then nuanced.label
  else if base.label == nuanced.label then base.label
  else if nuanced.confidence ≤ base.confidence then base.label
  else nuanced.label

/-- The combination rule in the words of the specification: the base label if
the base confidence exceeds 0.8; else the nuanced label if the nuanced
confidence exceeds 0.8; else the agreed label if both labels are equal; else
the label of the scorer with the strictly higher confidence, with ties going to
the base scorer. -/
def combineSpec (base nuanced : SentimentScore) : String :=
  if (0.8 : ℚ) < base.confidence then base.label
  else if (0.8 : ℚ) < nuanced.confidence then nuanced.label
  else if base.label = nuanced.label then base.label
  else if nuanced.confidence < base.confidence then base.label
  else if base.confidence < nuanced.confidence then nuanced.label
  else base.label

end Fusion

/-- Round half to even (Python's `round`), as an integer result. -/
def roundHalfEven (q : ℚ) : ℤ :=
  let n := ⌊q⌋
  if q - n < 1 / 2 then n
  else if (1 : ℚ) / 2 < q - n then n + 1
  else if 2 ∣ n then n else n + 1

/-- Python `round(q, d)`. -/
def pyRound (d : Nat) (q : ℚ) : ℚ :=
  (roundHalfEven (q * 10 ^ d) : ℚ) / 10 ^ d

namespace Emotion

/-- The result dictionary of `EmotionDetector.detect_emotion`
(`src/emotion.py` lines 69-73). -/
structure EmotionOut where
  label : String
  confidence : ℚ
  all_scores : List (String × ℚ)
deriving DecidableEq

/-- `_default_result` (`src/emotion.py` lines 79-85). -/
def default_result : EmotionOut :=
  ⟨"neutral", 0.5, [("neutral", 0.5)]⟩

/-- `EmotionDetector.detect_emotion` (`src/emotion.py` lines 39-77).
`pipe` is the classification model: `none` models an exception or a falsy
result, `some scores` the list of label/score pairs.  The second component of
the result records whether the model was invoked.  Input that is empty or whose
trimmed length is under `min_length` short-circuits to the default neutral
result without touching the model; otherwise the text is truncated to 512 code
points, classified, and the scores are sorted descending and rounded to three
decimals. -/
def detect_emotion (pipe : String → Option (List (String × ℚ)))
    (text : String) (min_length : Nat) : EmotionOut × Bool :=
  if text == "" || (pyStrip text.data).length < min_length then
    (default_result, false)
  else
    let truncated := if 512 < text.length then String.mk (text.data.take 512) else text
    match pipe truncated with
    | none => (default_result, true)
    | some scores =>
      match scores.mergeSort (fun a b => b.2 ≤ a.2) with
      | [] => (default_result, true)
      | top :: rest =>
        (⟨top.1, pyRound 3 top.2,
          (top :: rest).map (fun r => (r.1, pyRound 3 r.2))⟩, true)

end Emotion

namespace Memory

/-- A row of the SQLite `emotions` table (`src/memory.py` lines 103-112). -/
structure Row where
  user_id : String
  timestamp : String
  emotion_label : String
  confidence : ℚ
  message_text : Option String
  response_text : Option String
  session_id : Option String
deriving DecidableEq

/-- Python `confidence or 0.5` where `confidence` is an optional float:
`None` and `0.0` are falsy and replaced by `0.5`. -/
def pyOrHalf (confidence : Option ℚ) : ℚ :=
  match confidence with
  | none => 0.5
  | some q => if q = 0 then 0.5 else q

/-- `MemoryManager._add_to_sqlite` (`src/memory.py` lines 171-187): one
autonomous `INSERT` appending a row for the manager's user. -/
def add_to_sqlite (rows : List Row) (user_id timestamp emotion : String)
    (confidence : Option ℚ) (message response session_id : Option String) : List Row :=
  rows ++ [⟨user_id, timestamp, emotion, pyOrHalf confidence, message, response, session_id⟩]

/-- A row appended to the Google Sheets worksheet by `_add_to_sheets`
(`src/memory.py` lines 157-169): column order
timestamp, user, emotion, confidence, message, response, session, with falsy
optionals replaced by defaults. -/
structure SheetRow where
  timestamp : String
  user_id : String
  emotion_label : String
  confidence : ℚ
  message_text : String
  response_text : String
  session_id : String
deriving DecidableEq

/-- `MemoryManager._add_to_sheets` (`src/memory.py` lines 157-169). -/
def add_to_sheets (rows : List SheetRow) (user_id timestamp emotion : String)
    (confidence : Option ℚ) (message response session_id : Option String) : List SheetRow :=
  rows ++ [⟨timestamp, user_id, emotion, pyOrHalf confidence,
    message.getD "", response.getD "", session_id.getD ""⟩]

/-- Lexicographic strict order on code-point sequences (the order SQLite's
`>=` on TEXT and Python's `>=` on `str` both use for ISO-8601 timestamps). -/
def listLtb : List Char → List Char → Bool
  | _, [] => false
  | [], _ :: _ => true
  | a :: as, b :: bs =>
    if a.toNat < b.toNat then true
    else if b.toNat < a.toNat then false
    else listLtb as bs

/-- SQLite string comparison `timestamp >= cutoff` (ISO-8601 strings compare
lexicographically). -/
def tsGe (a cutoff : String) : Bool := !listLtb a.data cutoff.data

/-- `MemoryManager._get_from_sqlite` (`src/memory.py` lines 227-251):
`SELECT ... WHERE user_id = ? ORDER BY timestamp DESC LIMIT ?`.  (The Sheets
backend `_get_from_sheets`, lines 200-225, performs the same
filter-sort-slice pipeline in Python.) -/
def get_recent_emotions (rows : List Row) (user_id : String) (limit : Nat) : List Row :=
  ((rows.filter (fun r => r.user_id == user_id)).mergeSort
    (fun a b => tsGe a.timestamp b.timestamp)).take limit

/-- The record window `get_emotion_patterns` aggregates over
(`src/memory.py` lines 266-276): the user's rows with
`timestamp >= cutoff`, where `cutoff = (now - days).isoformat()`. -/
def windowOf (rows : List Row) (user_id cutoff : String) : List Row :=
  rows.filter (fun r => r.user_id == user_id && tsGe r.timestamp cutoff)

/-- One step of the `emotion_counts` accumulation of `get_emotion_patterns`
(`src/memory.py` lines 285-294): bump the count and confidence total of the
record's label, inserting the label at the end on first occurrence (Python
dict insertion order). -/
def bump (acc : List (String × Nat × ℚ)) (emotion : String) (conf : ℚ) :
    List (String × Nat × ℚ) :=
  match acc with
  | [] => [(emotion, 1, conf)]
  | (l, c, t) :: rest =>
    if l == emotion then (l, c + 1, t + conf) :: rest
    else (l, c, t) :: bump rest emotion conf

/-- Per-label statistics of the `patterns` mapping (`src/memory.py`
lines 297-303). -/
structure PatternStat where
  frequency : Nat
  percentage : ℚ
  avg_confidence : ℚ
deriving DecidableEq

/-- The dictionary returned by `get_emotion_patterns` (`src/memory.py`
lines 253-314); `avg_confidence` is absent (`none`) in the empty-window
result. -/
structure PatternsOut where
  total_entries : Nat
  avg_confidence : Option ℚ
  patterns : List (String × PatternStat)
deriving DecidableEq

/-- `MemoryManager.get_emotion_patterns` (`src/memory.py` lines 253-314),
SQLite branch: fetch the user's rows with `timestamp >= cutoff` (sorted
descending), return `{total_entries: 0, patterns: {}}` on an empty window, and
otherwise group by label, reporting for each label its frequency, its
percentage of the window total rounded to 1 decimal, and its mean confidence
rounded to 2 decimals. -/
def get_emotion_patterns (rows : List Row) (user_id cutoff : String) : PatternsOut :=
  let recent := (windowOf rows user_id cutoff).mergeSort
    (fun a b => tsGe a.timestamp b.timestamp)
  if recent.isEmpty then ⟨0, none, []⟩
  else
    let counts := recent.foldl (fun acc r => bump acc r.emotion_label r.confidence) []
    let total_confidence := (recent.map (fun r => r.confidence)).sum
    ⟨recent.length,
     some (pyRound 2 (total_confidence / recent.length)),
     counts.map (fun e =>
       (e.1, ⟨e.2.1, pyRound 1 ((e.2.1 : ℚ) / recent.length * 100),
              pyRound 2 (e.2.2 / e.2.1)⟩))⟩

/-- The aggregation that `get_emotion_patterns` applies to the
`recent_records` list its selected backend produced (`src/memory.py`
lines 278-310); the body of `get_emotion_patterns` above is this function
applied to the SQLite query result, see `patterns_eq_aggregate`. -/
def aggregate_patterns (recent : List Row) : PatternsOut :=
  if recent.isEmpty then ⟨0, none, []⟩
  else
    let counts := recent.foldl (fun acc r => bump acc r.emotion_label r.confidence) []
    let total_confidence := (recent.map (fun r => r.confidence)).sum
    ⟨recent.length,
     some (pyRound 2 (total_confidence / recent.length)),
     counts.map (fun e =>
       (e.1, ⟨e.2.1, pyRound 1 ((e.2.1 : ℚ) / recent.length * 100),
              pyRound 2 (e.2.2 / e.2.1)⟩))⟩

/-- `MemoryManager._get_from_sheets` (`src/memory.py` lines 200-225): the
user's records sorted most-recent-first, truncated to `limit`. -/
def get_from_sheets (rows : List Row) (user_id : String) (limit : Nat) : List Row :=
  ((rows.filter (fun r => r.user_id == user_id)).mergeSort
    (fun a b => tsGe a.timestamp b.timestamp)).take limit

/-- The `use_sheets` branch of `get_emotion_patterns` (`src/memory.py`
lines 258-264): fetch at most the 1000 most recent records of the user via
`_get_from_sheets(1000)`, then filter by date. -/
def get_emotion_patterns_sheets (rows : List Row) (user_id cutoff : String) : PatternsOut :=
  aggregate_patterns ((get_from_sheets rows user_id 1000).filter
    (fun r => tsGe r.timestamp cutoff))

/-- `get_emotion_patterns` with the backend selection of `src/memory.py`
line 258 (`if self.use_sheets`) made explicit. -/
def get_emotion_patterns_backend (use_sheets : Bool) (rows : List Row)
    (user_id cutoff : String) : PatternsOut :=
  if use_sheets then get_emotion_patterns_sheets rows user_id cutoff
  else get_emotion_patterns rows user_id cutoff

end Memory

/-! ## Helper lemmas -/

/-- A backend whose every attempt raises (used as a concrete scenario input). -/
def allRaise : Nat → Gemini.Attempt := fun _ => .raise

/-- A backend whose every attempt returns an empty text. -/
def emptyRet : Nat → Gemini.Attempt := fun _ => .ret ""

/-- Concrete store for the C6 witness: two in-window records for "alice"
sharing one fused label, one out-of-window record, one record of another
user. -/
def rowsC6 : List Memory.Row :=
  [⟨"alice", "2024-01-02T00:00:00", "negative-sadness", 0.6, none, none, none⟩,
   ⟨"alice", "2024-01-03T00:00:00", "negative-sadness", 0.8, none, none, none⟩,
   ⟨"bob", "2024-01-02T00:00:00", "positive-joy", 0.9, none, none, none⟩,
   ⟨"alice", "2020-01-01T00:00:00", "negative-sadness", 0.9, none, none, none⟩]

/-- Concrete store for the C9 witness. -/
def rowsC9 : List Memory.Row :=
  [⟨"alice", "2024-01-02T00:00:00", "negative-sadness", 0.6, none, none, none⟩]

/-- One in-window record of "alice", used 1001 times over in the C6
counterexample. -/
def rBig : Memory.Row :=
  ⟨"alice", "2024-01-02T00:00:00", "negative-sadness", 0.5, none, none, none⟩

/-- A store holding 1001 in-window records of "alice": more than the
`_get_from_sheets(1000)` cap of the Sheets branch. -/
def rowsBig : List Memory.Row := List.replicate 1001 rBig

/-- The concrete over-long result for the C3 counterexample: two short
sentences followed by padding. -/
def longC3bad : String := "A. B. " ++ String.mk (List.replicate 200 'x')

/-- A benign over-long result for the C3 witness. -/
def longC3ok : String := String.mk (List.replicate 201 'a')

theorem fallback_response_cases (p : String) :
    Gemini.fallback_response p ∈
      [Gemini.fallback_sad, Gemini.fallback_angry, Gemini.fallback_anxious,
       Gemini.fallback_happy, Gemini.fallback_tired, Gemini.fallback_default] := by
  simp only [Gemini.fallback_response]
  split_ifs <;> simp

theorem fallback_no_fb_sub (p : String) :
    containsSub (lowerL (Gemini.fallback_response p).data) "fallback".data = false := by
  have h := fallback_response_cases p
  simp only [List.mem_cons, List.not_mem_nil, or_false] at h
  rcases h with h | h | h | h | h | h <;> rw [h] <;> decide

theorem templates_cases (emo : String) :
    RespGen.response_templates emo ∈
      [RespGen.templates_sadness, RespGen.templates_anger, RespGen.templates_fear,
       RespGen.templates_joy, RespGen.templates_neutral] := by
  unfold RespGen.response_templates
  split_ifs <;> simp

theorem templates_ne_nil (emo : String) : RespGen.response_templates emo ≠ [] := by
  have h := templates_cases emo
  simp only [List.mem_cons, List.not_mem_nil, or_false] at h
  rcases h with h | h | h | h | h <;> rw [h] <;> decide

theorem template_mem (emo : String) (k : Nat) :
    RespGen.get_template_response emo k ∈ RespGen.response_templates emo := by
  unfold RespGen.get_template_response
  have hpos : 0 < (RespGen.response_templates emo).length :=
    List.length_pos.mpr (templates_ne_nil emo)
  have hlt : k % (RespGen.response_templates emo).length <
      (RespGen.response_templates emo).length := Nat.mod_lt _ hpos
  rw [List.getD_eq_getElem _ _ hlt]
  exact List.getElem_mem hlt

theorem calc_conf_ge (resp emo : String) :
    (0.7 : ℚ) ≤ RespGen.calculate_response_confidence resp emo := by
  simp only [RespGen.calculate_response_confidence]
  split_ifs <;> norm_num

/-- `genLoop` run over attempts that all fail: no result, one backend call per
attempt, and one backoff sleep of `2 ^ i` for every raising attempt `i` that is
not the last one. -/
theorem genLoop_all_failed (backend : Nat → Gemini.Attempt) (N : Nat) :
    ∀ (fuel start : Nat), start + fuel = N →
      (∀ i, i < N → (backend i).failed = true) →
      Gemini.genLoop backend start fuel =
        (none, fuel,
          ((List.range' start fuel).filter
            (fun i => decide (i + 1 < N) && (backend i).isRaise)).map (fun i => 2 ^ i)) := by
  intro fuel
  induction fuel with
  | zero => intro start _ _; simp [Gemini.genLoop]
  | succ r ih =>
    intro start hN hfail
    have hstart : start < N := by omega
    have hrec := ih (start + 1) (by omega) hfail
    rw [List.range'_succ]
    cases hba : backend start with
    | ret s =>
      have hs : (s == "") = true := by
        have h := hfail start hstart
        rwa [hba] at h
      have hfilter : List.filter (fun i => decide (i + 1 < N) && (backend i).isRaise)
          (start :: List.range' (start + 1) r) =
          List.filter (fun i => decide (i + 1 < N) && (backend i).isRaise)
            (List.range' (start + 1) r) := by
        rw [List.filter_cons]
        simp [hba, Gemini.Attempt.isRaise]
      rw [hfilter]
      simp only [Gemini.genLoop, hba, hs, if_true, hrec]
    | raise =>
      have hsleep : (decide (start + 1 < N) && (backend start).isRaise) =
          decide (1 ≤ r) := by
        rw [hba]
        simp only [Gemini.Attempt.isRaise, Bool.and_true]
        by_cases h1 : 1 ≤ r
        · simp [h1, show start + 1 < N by omega]
        · simp [h1, show ¬(start + 1 < N) by omega]
      simp only [Gemini.genLoop, hba, hrec]
      rw [List.filter_cons, hsleep]
      by_cases h1 : 1 ≤ r
      · simp [h1]
      · simp [h1]

/-! ## Claims -/

/-- Claim C4: for every pair of scorer results, the combined sentiment label is
chosen by exactly this priority order: the base label if the base confidence
exceeds 0.8; else the nuanced label if the nuanced confidence exceeds 0.8; else
the agreed label if both labels are equal; else the label of the scorer with
the strictly higher confidence, with ties going to the base scorer. -/
theorem C4_combine_priority (base nuanced : Fusion.SentimentScore) :
    Fusion.combine_sentiments base nuanced = Fusion.combineSpec base nuanced := by
  unfold Fusion.combine_sentiments Fusion.combineSpec
  simp only [beq_iff_eq]
  split_ifs <;> first | rfl | linarith

/-- Claim C5: every input text that is empty or whose trimmed length is below
the minimum length threshold (5 characters) makes `detect_emotion` return the
default neutral result — label "neutral", confidence 0.5, `all_scores`
containing only ("neutral", 0.5) — without invoking the classification model. -/
theorem C5_short_input_neutral (pipe : String → Option (List (String × ℚ)))
    (text : String) (h : text = "" ∨ (pyStrip text.data).length < 5) :
    Emotion.detect_emotion pipe text 5 =
      (⟨"neutral", 0.5, [("neutral", 0.5)]⟩, false) := by
  unfold Emotion.detect_emotion
  rcases h with h | h
  · subst h
    simp [Emotion.default_result]
  · simp [h, Emotion.default_result]

/-- Witness for C5 at the concrete input "hi " (trimmed length 2). -/
theorem C5_short_input_neutral_witness :
    (pyStrip ("hi " : String).data).length < 5 ∧
      Emotion.detect_emotion (fun _ => none) "hi " 5 =
        (⟨"neutral", 0.5, [("neutral", 0.5)]⟩, false) :=
  ⟨by decide, C5_short_input_neutral (fun _ => none) "hi " (Or.inr (by decide))⟩

/-- Claim C10: `add_emotion_record` persists `confidence or 0.5`: a `None` or
`0.0` confidence argument is stored as 0.5 on both backends, the appended row is
otherwise the given record, and (as the preserved invariant) no stored record
ever has confidence 0. -/
theorem C10_confidence_default :
    Memory.pyOrHalf none = 0.5 ∧
    Memory.pyOrHalf (some 0) = 0.5 ∧
    (∀ c, Memory.pyOrHalf c ≠ 0) ∧
    (∀ rows u ts emo c msg resp sess,
      Memory.add_to_sqlite rows u ts emo c msg resp sess =
        rows ++ [⟨u, ts, emo, Memory.pyOrHalf c, msg, resp, sess⟩]) ∧
    (∀ rows u ts emo c msg resp sess,
      Memory.add_to_sheets rows u ts emo c msg resp sess =
        rows ++ [⟨ts, u, emo, Memory.pyOrHalf c, msg.getD "", resp.getD "", sess.getD ""⟩]) ∧
    (∀ rows u ts emo c msg resp sess,
      (∀ x ∈ rows, x.confidence ≠ 0) →
      ∀ r ∈ Memory.add_to_sqlite rows u ts emo c msg resp sess, r.confidence ≠ 0) := by
  have hNZ : ∀ c, Memory.pyOrHalf c ≠ 0 := by
    intro c
    match c with
    | none => norm_num [Memory.pyOrHalf]
    | some q =>
      simp only [Memory.pyOrHalf]
      split_ifs with h
      · norm_num
      · exact h
  refine ⟨rfl, by norm_num [Memory.pyOrHalf], hNZ, fun _ _ _ _ _ _ _ _ => rfl,
    fun _ _ _ _ _ _ _ _ => rfl, ?_⟩
  intro rows u ts emo c msg resp sess hrows r hr
  rcases List.mem_append.mp hr with h | h
  · exact hrows r h
  · simp only [List.mem_singleton] at h
    rw [h]
    exact hNZ c

/-- Witness for C10: a record appended with confidence `0.0` is stored with
confidence 0.5, hence non-zero. -/
theorem C10_confidence_default_witness :
    (⟨"u", "t", "e", 0.5, none, none, none⟩ : Memory.Row).confidence ≠ 0 :=
  C10_confidence_default.2.2.2.2.2 [] "u" "t" "e" (some 0) none none none
    (by intro x hx; simp at hx)
    ⟨"u", "t", "e", 0.5, none, none, none⟩
    (by simp [Memory.add_to_sqlite, Memory.pyOrHalf])

/-- Claim C2: with no backing model configured, `generate_response` returns the
deterministic keyword fallback for the prompt — identical across calls and
independent of the backend and retry budget — with zero backend calls and no
sleeps; the fallback is one of the six canned strings, chosen by
case-insensitive keyword match in the fixed priority order (sadness first),
with the generic supportive message when no set matches. -/
theorem C2_unconfigured_deterministic :
    (∀ (prompt : String) (backend backend' : Nat → Gemini.Attempt) (mr mr' : Nat),
      Gemini.generate_response false backend mr prompt =
        Gemini.generate_response false backend' mr' prompt) ∧
    (∀ (prompt : String) (backend : Nat → Gemini.Attempt) (mr : Nat),
      Gemini.generate_response false backend mr prompt =
        ⟨Gemini.fallback_response prompt, 0, []⟩) ∧
    (∀ prompt : String, Gemini.fallback_response prompt ∈
      [Gemini.fallback_sad, Gemini.fallback_angry, Gemini.fallback_anxious,
       Gemini.fallback_happy, Gemini.fallback_tired, Gemini.fallback_default]) ∧
    (∀ prompt : String, containsAnyWord (lowerL prompt.data) Gemini.sadWords = true →
      Gemini.fallback_response prompt = Gemini.fallback_sad) ∧
    (∀ prompt : String,
      containsAnyWord (lowerL prompt.data) Gemini.sadWords = false →
      containsAnyWord (lowerL prompt.data) Gemini.angryWords = false →
      containsAnyWord (lowerL prompt.data) Gemini.anxiousWords = false →
      containsAnyWord (lowerL prompt.data) Gemini.happyWords = false →
      containsAnyWord (lowerL prompt.data) Gemini.tiredWords = false →
      Gemini.fallback_response prompt = Gemini.fallback_default) := by
  refine ⟨fun _ _ _ _ _ => rfl, fun _ _ _ => rfl, fallback_response_cases, ?_, ?_⟩
  · intro prompt h
    simp [Gemini.fallback_response, h]
  · intro prompt h1 h2 h3 h4 h5
    simp [Gemini.fallback_response, h1, h2, h3, h4, h5]

/-- Witness for C2: the prompt "I feel sad" matches the sadness keyword set and
yields the sadness message; the prompt "Hello" matches no set and yields the
generic supportive message. -/
theorem C2_unconfigured_deterministic_witness :
    Gemini.fallback_response "I feel sad" = Gemini.fallback_sad ∧
      Gemini.fallback_response "Hello" = Gemini.fallback_default :=
  ⟨C2_unconfigured_deterministic.2.2.2.1 "I feel sad" (by decide),
   C2_unconfigured_deterministic.2.2.2.2 "Hello" (by decide) (by decide) (by decide)
     (by decide) (by decide)⟩

/-- Claim C7 counterexample: with a configured model whose every attempt
returns an empty result and `max_retries = 3`, the claim predicts backoff waits
of 2^0 and 2^1 seconds after the first two failed attempts; the code performs
no wait at all (the `time.sleep` sits in the `except` branch only), and the
deterministic fallback is returned. -/
theorem C7_counterexample :
    (Gemini.generate_response true emptyRet 3 "p").sleeps = [] ∧
    (Gemini.generate_response true emptyRet 3 "p").sleeps ≠ [2 ^ 0, 2 ^ 1] ∧
    (Gemini.generate_response true emptyRet 3 "p").result = Gemini.fallback_response "p" ∧
    (Gemini.generate_response true emptyRet 3 "p").calls = 3 :=
  ⟨by decide, by decide, by decide, by decide⟩

/-- Claim C7 (amended): within one `generate` call with a configured model,
every failing attempt (empty result or raised error) is retried, up to
`max_retries` attempts in total; after a failed attempt that *raised an error*
the client waits 2^attempt seconds unless it was the final attempt, while an
attempt that merely returned an empty result is retried without waiting; after
the final failed attempt the deterministic fallback is returned without
waiting. -/
theorem C7_backoff_on_errors_only (backend : Nat → Gemini.Attempt) (mr : Nat)
    (prompt : String) (hfail : ∀ i, i < mr → (backend i).failed = true) :
    Gemini.generate_response true backend mr prompt =
      ⟨Gemini.fallback_response prompt, mr,
       ((List.range mr).filter (fun i => decide (i + 1 < mr) && (backend i).isRaise)).map
         (fun i => 2 ^ i)⟩ := by
  have h := genLoop_all_failed backend mr mr 0 (by omega) hfail
  simp only [Gemini.generate_response, if_true, h, Option.getD_none, List.range_eq_range']

/-- Witness for C7 at the all-raising backend with 3 attempts: backoffs of
2^0 = 1 and 2^1 = 2 seconds after the first two attempts, none after the
last. -/
theorem C7_backoff_on_errors_only_witness :
    Gemini.generate_response true allRaise 3 "q" =
      ⟨Gemini.fallback_response "q", 3, [1, 2]⟩ := by
  have h := C7_backoff_on_errors_only allRaise 3 "q" (fun i _ => rfl)
  rw [h]
  decide

/-- Claim C8 counterexample: with a configured model whose single probe attempt
raises, the probe's response is produced by the fallback path, yet
`check_api_health` reports available = true — the health check looks for the
literal substring "fallback", which no canned fallback text contains. -/
theorem C8_counterexample :
    (Gemini.generate_response true allRaise 1 "Hello").result =
      Gemini.fallback_response "Hello" ∧
    Gemini.check_api_health true allRaise = (true, "API working") :=
  ⟨by decide, by decide⟩

/-- Claim C8 (amended): the health probe sends "Hello" with `max_retries = 1`
and reports available = true iff the response is non-empty and does not contain
the substring "fallback" (case-insensitively); an unconfigured client reports
unavailable; and since no canned fallback text contains that substring, a probe
whose single attempt fails — i.e. one answered by the fallback path — reports
available = true, not false. -/
theorem C8_health_check_substring :
    (∀ backend, Gemini.check_api_health false backend = (false, "Client not initialized")) ∧
    (∀ backend : Nat → Gemini.Attempt,
      ((Gemini.check_api_health true backend).1 = true ↔
        0 < (Gemini.generate_response true backend 1 "Hello").result.length ∧
        containsSub (lowerL (Gemini.generate_response true backend 1 "Hello").result.data)
          "fallback".data = false)) ∧
    (∀ backend : Nat → Gemini.Attempt, (backend 0).failed = true →
      (Gemini.check_api_health true backend).1 = true) := by
  refine ⟨fun _ => rfl, ?_, ?_⟩
  · intro backend
    simp only [Gemini.check_api_health, if_true, Bool.and_eq_true, decide_eq_true_eq,
      Bool.not_eq_true']
  · intro backend h0
    have hres : (Gemini.generate_response true backend 1 "Hello").result =
        Gemini.fallback_response "Hello" := by
      have h := genLoop_all_failed backend 1 1 0 (by omega)
        (fun i hi => by
          have : i = 0 := by omega
          rw [this]
          exact h0)
      simp only [Gemini.generate_response, if_true, h, Option.getD_none]
    simp only [Gemini.check_api_health, if_true, Bool.and_eq_true, decide_eq_true_eq,
      Bool.not_eq_true']
    rw [hres]
    constructor
    · decide
    · decide

/-- Witness for C8: an unconfigured client is unavailable, and a configured
client whose single probe attempt returns an empty text reports available =
true (the probe was answered by the fallback path). -/
theorem C8_health_check_substring_witness :
    Gemini.check_api_health false allRaise = (false, "Client not initialized") ∧
      (Gemini.check_api_health true emptyRet).1 = true :=
  ⟨C8_health_check_substring.1 allRaise, C8_health_check_substring.2.2 emptyRet rfl⟩

/-- Claim C1 counterexample: with the generation backend raising on every
attempt for all 3 retries, the claim predicts a synthesizer result with
`generation_method = "fallback_template"` and confidence 0.5.  In the code the
client swallows the errors and returns its canned keyword fallback string, the
synthesizer treats that string as a normal result (it does not contain the
substring "fallback"), and the returned record has `generation_method = "llm"`
and confidence 0.8. -/
theorem C1_counterexample :
    (RespGen.generate_response true allRaise "I feel sad" "negative-sadness" [] 0).generation_method = "llm" ∧
    (RespGen.generate_response true allRaise "I feel sad" "negative-sadness" [] 0).generation_method ≠ "fallback_template" ∧
    (RespGen.generate_response true allRaise "I feel sad" "negative-sadness" [] 0).confidence = 0.8 ∧
    (RespGen.generate_response true allRaise "I feel sad" "negative-sadness" [] 0).confidence ≠ 0.5 ∧
    (RespGen.generate_response true allRaise "I feel sad" "negative-sadness" [] 0).response = Gemini.fallback_sad := by
  have hprim : RespGen.extract_primary_emotion "negative-sadness" = "sadness" := by decide
  have hllm : (Gemini.generate_response true allRaise 3
      (RespGen.build_prompt "I feel sad" "negative-sadness" "sadness" [])).result =
      Gemini.fallback_sad := by decide
  have hval : RespGen.validate_and_enhance_response Gemini.fallback_sad "sadness" 0 =
      Gemini.fallback_sad := by decide
  have hmeth : (if !containsSub (lowerL Gemini.fallback_sad.data) "fallback".data
      then "llm" else "template") = "llm" := by decide
  have hconf : RespGen.calculate_response_confidence Gemini.fallback_sad "negative-sadness"
      = 0.8 := by
    simp only [RespGen.calculate_response_confidence,
      show RespGen.emotion_keywords "negative-sadness" = [] from by decide,
      show (50 < Gemini.fallback_sad.length) = True from by decide]
    norm_num
  have key : RespGen.generate_response true allRaise "I feel sad" "negative-sadness" [] 0 =
      ⟨Gemini.fallback_sad, "negative-sadness", "sadness", "llm", 0.8⟩ := by
    simp only [RespGen.generate_response, hprim, hllm, hval, hmeth, hconf]
  refine ⟨by rw [key], by rw [key]; decide, by rw [key], by rw [key]; norm_num, by rw [key]⟩

/-- Claim C1 (amended): when the backend raises on every attempt, the client
returns its deterministic keyword fallback string, so the synthesizer reports
`generation_method = "llm"` (the fallback texts do not contain the substring
"fallback") with confidence at least 0.7; it is only an unhandled exception
inside the synthesizer's own steps 1-7 (its `except` branch,
`_fallback_response`) that degrades to the template path with confidence 0.5
and `generation_method = "fallback_template"` — and that branch returns a
member of the canned template set for the primary emotion, so the synthesizer
never raises to its caller. -/
theorem C1_exception_fallback :
    (∀ (backend : Nat → Gemini.Attempt) (ut fused : String)
        (hist : List (String × String)) (k : Nat),
      (∀ i, backend i = Gemini.Attempt.raise) →
      (RespGen.generate_response true backend ut fused hist k).generation_method = "llm" ∧
      (0.7 : ℚ) ≤ (RespGen.generate_response true backend ut fused hist k).confidence) ∧
    (∀ (ut fused : String) (k : Nat),
      (RespGen.fallback_response_gen ut fused k).generation_method = "fallback_template" ∧
      (RespGen.fallback_response_gen ut fused k).confidence = 0.5 ∧
      (RespGen.fallback_response_gen ut fused k).response ∈
        RespGen.response_templates (RespGen.extract_primary_emotion fused)) := by
  constructor
  · intro backend ut fused hist k hraise
    have hfail : ∀ i, i < 3 → (backend i).failed = true := by
      intro i _
      rw [hraise i]
      rfl
    have hloop := genLoop_all_failed backend 3 3 0 (by omega) hfail
    have hllm : ∀ p, (Gemini.generate_response true backend 3 p).result =
        Gemini.fallback_response p := by
      intro p
      simp only [Gemini.generate_response, if_true, hloop, Option.getD_none]
    have hno : containsSub
        (lowerL (Gemini.fallback_response
          (RespGen.build_prompt ut fused (RespGen.extract_primary_emotion fused) hist)).data)
        ['f', 'a', 'l', 'l', 'b', 'a', 'c', 'k'] = false :=
      fallback_no_fb_sub _
    constructor
    · simp only [RespGen.generate_response, hllm, hno, Bool.not_false, if_true]
    · simp only [RespGen.generate_response]
      exact calc_conf_ge _ _
  · intro ut fused k
    exact ⟨rfl, rfl, template_mem _ _⟩

/-- Witness for C1 at concrete inputs: the all-raising backend yields method
"llm" with confidence at least 0.7, and the synthesizer's own exception branch
yields method "fallback_template" with confidence 0.5. -/
theorem C1_exception_fallback_witness :
    ((RespGen.generate_response true allRaise "x" "joy" [] 0).generation_method = "llm" ∧
      (0.7 : ℚ) ≤ (RespGen.generate_response true allRaise "x" "joy" [] 0).confidence) ∧
    ((RespGen.fallback_response_gen "x" "joy" 0).generation_method = "fallback_template" ∧
      (RespGen.fallback_response_gen "x" "joy" 0).confidence = 0.5 ∧
      (RespGen.fallback_response_gen "x" "joy" 0).response ∈
        RespGen.response_templates (RespGen.extract_primary_emotion "joy")) :=
  ⟨C1_exception_fallback.1 allRaise "x" "joy" [] 0 (fun _ => rfl),
   C1_exception_fallback.2 "x" "joy" 0⟩

theorem roundHalfEven_int (n : ℤ) : roundHalfEven (n : ℚ) = n := by
  unfold roundHalfEven
  rw [Int.floor_intCast]
  rw [if_pos]
  rw [sub_self]
  norm_num

theorem pyRound_exact (d : Nat) (n : ℤ) (q : ℚ) (h : q * 10 ^ d = (n : ℚ)) :
    pyRound d q = q := by
  unfold pyRound
  rw [h, roundHalfEven_int, ← h]
  exact mul_div_cancel_right₀ q (by positivity)

theorem foldl_bump_same (L : String) :
    ∀ (l : List Memory.Row) (c : Nat) (t : ℚ),
      (∀ r ∈ l, r.emotion_label = L) →
      l.foldl (fun acc r => Memory.bump acc r.emotion_label r.confidence) [(L, c, t)] =
        [(L, c + l.length, t + (l.map (fun r => r.confidence)).sum)] := by
  intro l
  induction l with
  | nil => intro c t _; simp
  | cons r l ih =>
    intro c t hall
    have hr : r.emotion_label = L := hall r (by simp)
    have hstep : Memory.bump [(L, c, t)] r.emotion_label r.confidence =
        [(L, c + 1, t + r.confidence)] := by
      rw [hr]
      simp [Memory.bump]
    rw [List.foldl_cons, hstep, ih (c + 1) (t + r.confidence)
      (fun x hx => hall x (by simp [hx]))]
    simp only [List.length_cons, List.map_cons, List.sum_cons]
    rw [Nat.add_assoc c 1 l.length, Nat.add_comm 1 l.length, add_assoc]

theorem counts_single_label (L : String) (l : List Memory.Row) (hne : l ≠ [])
    (hall : ∀ r ∈ l, r.emotion_label = L) :
    l.foldl (fun acc r => Memory.bump acc r.emotion_label r.confidence) [] =
      [(L, l.length, (l.map (fun r => r.confidence)).sum)] := by
  match l with
  | r :: l' =>
    have hr : r.emotion_label = L := hall r (by simp)
    have hstep : Memory.bump [] r.emotion_label r.confidence = [(L, 1, r.confidence)] := by
      rw [hr]
      rfl
    rw [List.foldl_cons, hstep, foldl_bump_same L l' 1 r.confidence
      (fun x hx => hall x (by simp [hx]))]
    simp only [List.length_cons, List.map_cons, List.sum_cons]
    rw [Nat.add_comm 1 l'.length]

/-- The SQLite branch of `get_emotion_patterns`: its output depends only on
the user's in-window records; an empty window yields
`{total_entries: 0, patterns: {}}`; and a window of N ≥ 1 records all sharing
one fused label reports total_entries = N and that single label with frequency
N, percentage 100.0, and the mean confidence rounded to 2 decimals. -/
theorem C6_patterns (rows : List Memory.Row) (u cutoff : String) :
    (Memory.windowOf rows u cutoff = [] →
      Memory.get_emotion_patterns rows u cutoff = ⟨0, none, []⟩) ∧
    (∀ rows' : List Memory.Row,
      Memory.windowOf rows' u cutoff = Memory.windowOf rows u cutoff →
      Memory.get_emotion_patterns rows' u cutoff = Memory.get_emotion_patterns rows u cutoff) ∧
    (∀ L : String, Memory.windowOf rows u cutoff ≠ [] →
      (∀ r ∈ Memory.windowOf rows u cutoff, r.emotion_label = L) →
      Memory.get_emotion_patterns rows u cutoff =
        ⟨(Memory.windowOf rows u cutoff).length,
         some (pyRound 2 (((Memory.windowOf rows u cutoff).map (fun r => r.confidence)).sum /
           (Memory.windowOf rows u cutoff).length)),
         [(L, ⟨(Memory.windowOf rows u cutoff).length, 100,
            pyRound 2 (((Memory.windowOf rows u cutoff).map (fun r => r.confidence)).sum /
              (Memory.windowOf rows u cutoff).length)⟩)]⟩) := by
  refine ⟨?_, ?_, ?_⟩
  · intro h
    simp only [Memory.get_emotion_patterns, h, List.mergeSort_nil, List.isEmpty_nil,
      if_true]
  · intro rows' h
    simp only [Memory.get_emotion_patterns]
    rw [h]
  · intro L hne hall
    have hperm := List.mergeSort_perm (Memory.windowOf rows u cutoff)
      (fun a b => Memory.tsGe a.timestamp b.timestamp)
    have hlen : ((Memory.windowOf rows u cutoff).mergeSort
        (fun a b => Memory.tsGe a.timestamp b.timestamp)).length =
        (Memory.windowOf rows u cutoff).length := hperm.length_eq
    have hsum : (((Memory.windowOf rows u cutoff).mergeSort
        (fun a b => Memory.tsGe a.timestamp b.timestamp)).map (fun r => r.confidence)).sum =
        ((Memory.windowOf rows u cutoff).map (fun r => r.confidence)).sum :=
      (hperm.map (fun r => r.confidence)).sum_eq
    have hallS : ∀ r ∈ (Memory.windowOf rows u cutoff).mergeSort
        (fun a b => Memory.tsGe a.timestamp b.timestamp), r.emotion_label = L :=
      fun r hr => hall r (hperm.mem_iff.mp hr)
    have hneS : (Memory.windowOf rows u cutoff).mergeSort
        (fun a b => Memory.tsGe a.timestamp b.timestamp) ≠ [] := by
      intro hcon
      apply hne
      have := hlen
      rw [hcon] at this
      exact List.length_eq_zero.mp this.symm
    have hN : 0 < (Memory.windowOf rows u cutoff).length :=
      List.length_pos.mpr hne
    have hcast : ((Memory.windowOf rows u cutoff).length : ℚ) ≠ 0 :=
      Nat.cast_ne_zero.mpr hN.ne'
    have hpct : pyRound 1 (((Memory.windowOf rows u cutoff).length : ℚ) /
        (Memory.windowOf rows u cutoff).length * 100) = 100 := by
      rw [div_self hcast, one_mul]
      exact pyRound_exact 1 1000 100 (by norm_num)
    simp only [Memory.get_emotion_patterns]
    rw [if_neg (by simp [List.isEmpty_iff, hneS])]
    rw [counts_single_label L _ hneS hallS, hlen, hsum]
    simp only [List.map_cons, List.map_nil, hpct]

/-- Instantiation of `C6_patterns` at a concrete store: over a window of 2
records for "alice" sharing label "negative-sadness", the SQLite branch
reports that label with frequency 2 and percentage 100. -/
theorem C6_patterns_witness :
    Memory.get_emotion_patterns rowsC6 "alice" "2024-01-01T00:00:00" =
      ⟨(Memory.windowOf rowsC6 "alice" "2024-01-01T00:00:00").length,
       some (pyRound 2
         (((Memory.windowOf rowsC6 "alice" "2024-01-01T00:00:00").map
             (fun r => r.confidence)).sum /
           (Memory.windowOf rowsC6 "alice" "2024-01-01T00:00:00").length)),
       [("negative-sadness",
         ⟨(Memory.windowOf rowsC6 "alice" "2024-01-01T00:00:00").length, 100,
          pyRound 2
            (((Memory.windowOf rowsC6 "alice" "2024-01-01T00:00:00").map
                (fun r => r.confidence)).sum /
              (Memory.windowOf rowsC6 "alice" "2024-01-01T00:00:00").length)⟩)]⟩ ∧
    (Memory.windowOf rowsC6 "alice" "2024-01-01T00:00:00").length = 2 :=
  ⟨(C6_patterns rowsC6 "alice" "2024-01-01T00:00:00").2.2 "negative-sadness"
    (by decide) (by decide), by decide⟩

theorem patterns_eq_aggregate (rows : List Memory.Row) (u cutoff : String) :
    Memory.get_emotion_patterns rows u cutoff =
      Memory.aggregate_patterns ((Memory.windowOf rows u cutoff).mergeSort
        (fun a b => Memory.tsGe a.timestamp b.timestamp)) := rfl

theorem aggregate_total_le (l : List Memory.Row) :
    (Memory.aggregate_patterns l).total_entries ≤ l.length := by
  simp only [Memory.aggregate_patterns]
  split_ifs <;> simp

theorem aggregate_empty_of_perm (l W : List Memory.Row) (hperm : l.Perm W)
    (hW : W = []) : Memory.aggregate_patterns l = ⟨0, none, []⟩ := by
  subst hW
  rw [hperm.eq_nil]
  rfl

theorem aggregate_single_label (l W : List Memory.Row) (hperm : l.Perm W) (L : String)
    (hne : W ≠ []) (hall : ∀ r ∈ W, r.emotion_label = L) :
    Memory.aggregate_patterns l =
      ⟨W.length,
       some (pyRound 2 ((W.map (fun r => r.confidence)).sum / W.length)),
       [(L, ⟨W.length, 100,
          pyRound 2 ((W.map (fun r => r.confidence)).sum / W.length)⟩)]⟩ := by
  have hlen : l.length = W.length := hperm.length_eq
  have hsum : (l.map (fun r => r.confidence)).sum =
      (W.map (fun r => r.confidence)).sum :=
    (hperm.map (fun r => r.confidence)).sum_eq
  have hallL : ∀ r ∈ l, r.emotion_label = L := fun r hr => hall r (hperm.mem_iff.mp hr)
  have hneL : l ≠ [] := by
    intro h
    subst h
    exact hne hperm.symm.eq_nil
  have hN : 0 < W.length := List.length_pos.mpr hne
  have hcast : (W.length : ℚ) ≠ 0 := Nat.cast_ne_zero.mpr hN.ne'
  have hpct : pyRound 1 ((W.length : ℚ) / W.length * 100) = 100 := by
    rw [div_self hcast, one_mul]
    exact pyRound_exact 1 1000 100 (by norm_num)
  simp only [Memory.aggregate_patterns]
  rw [if_neg (by simp [List.isEmpty_iff, hneL])]
  rw [counts_single_label L l hneL hallL, hlen, hsum]
  simp only [List.map_cons, List.map_nil, hpct]

/-- Claim C6 counterexample: the claim quantifies over `patterns(days)` as a
whole, but its Sheets branch (`use_sheets`, `src/memory.py` line 258) first
caps the fetch at the user's 1000 most recent records via
`_get_from_sheets(1000)`.  For a store of 1001 in-window records of one user
all sharing one fused label, the claim predicts total_entries = 1001 with
frequency 1001; the Sheets branch reports total_entries = 1000 — it does not
consider exactly the user's records with timestamp ≥ now−days. -/
theorem C6_counterexample :
    (∀ r ∈ Memory.windowOf rowsBig "alice" "2024-01-01T00:00:00",
      r.emotion_label = "negative-sadness") ∧
    (Memory.windowOf rowsBig "alice" "2024-01-01T00:00:00").length = 1001 ∧
    (Memory.get_emotion_patterns_backend true rowsBig "alice"
      "2024-01-01T00:00:00").total_entries = 1000 ∧
    (Memory.get_emotion_patterns_backend true rowsBig "alice"
      "2024-01-01T00:00:00").total_entries ≠
      (Memory.windowOf rowsBig "alice" "2024-01-01T00:00:00").length := by
  have hwin : Memory.windowOf rowsBig "alice" "2024-01-01T00:00:00" = rowsBig := by
    unfold Memory.windowOf rowsBig
    rw [List.filter_replicate, if_pos (by decide)]
  have hlen : (Memory.windowOf rowsBig "alice" "2024-01-01T00:00:00").length = 1001 := by
    rw [hwin]
    unfold rowsBig
    exact List.length_replicate _ _
  have hfil : rowsBig.filter (fun r => r.user_id == "alice") = rowsBig := by
    unfold rowsBig
    rw [List.filter_replicate, if_pos (by decide)]
  have hsort : rowsBig.mergeSort (fun a b => Memory.tsGe a.timestamp b.timestamp) =
      rowsBig := by
    have h := List.mergeSort_perm rowsBig (fun a b => Memory.tsGe a.timestamp b.timestamp)
    unfold rowsBig at h ⊢
    exact List.perm_replicate.mp h
  have htake : rowsBig.take 1000 = List.replicate 1000 rBig := by
    unfold rowsBig
    rw [List.take_replicate, show (1000 : Nat) ⊓ 1001 = 1000 from by decide]
  have hfil2 : (List.replicate 1000 rBig).filter
      (fun r => Memory.tsGe r.timestamp "2024-01-01T00:00:00") =
      List.replicate 1000 rBig := by
    rw [List.filter_replicate, if_pos (by decide)]
  have hb : Memory.get_emotion_patterns_backend true rowsBig "alice"
      "2024-01-01T00:00:00" =
      Memory.get_emotion_patterns_sheets rowsBig "alice" "2024-01-01T00:00:00" := by
    simp only [Memory.get_emotion_patterns_backend]
    rw [if_pos trivial]
  have htot : (Memory.get_emotion_patterns_backend true rowsBig "alice"
      "2024-01-01T00:00:00").total_entries = 1000 := by
    rw [hb]
    unfold Memory.get_emotion_patterns_sheets Memory.get_from_sheets
    rw [hfil, hsort, htake, hfil2]
    simp only [Memory.aggregate_patterns]
    rw [if_neg (by simp [List.isEmpty_iff, List.replicate_eq_nil_iff])]
    simp [List.length_replicate]
  refine ⟨?_, hlen, htot, ?_⟩
  · intro r hr
    rw [hwin] at hr
    unfold rowsBig at hr
    rw [List.eq_of_mem_replicate hr]
    rfl
  · rw [htot, hlen]
    decide

/-- Claim C6 (amended): on the default SQLite backend, `patterns(days)`
considers exactly the user's records with timestamp ≥ now−days — its output
depends only on that window, an empty window yields
`{total_entries: 0, patterns: {}}`, and a window of N ≥ 1 records all sharing
one fused label reports total_entries = N and that single label with frequency
N, percentage 100.0 (rounded to 1 decimal) and the mean confidence rounded to
2 decimals.  On the Sheets backend the analysis is first capped to the user's
1000 most recent records, so total_entries never exceeds 1000, and the same
window behavior holds there only when the user has at most 1000 records. -/
theorem C6_patterns_by_backend (rows : List Memory.Row) (u cutoff : String) :
    (Memory.get_emotion_patterns_backend false rows u cutoff =
      Memory.get_emotion_patterns rows u cutoff) ∧
    (Memory.windowOf rows u cutoff = [] →
      Memory.get_emotion_patterns rows u cutoff = ⟨0, none, []⟩) ∧
    (∀ rows' : List Memory.Row,
      Memory.windowOf rows' u cutoff = Memory.windowOf rows u cutoff →
      Memory.get_emotion_patterns rows' u cutoff =
        Memory.get_emotion_patterns rows u cutoff) ∧
    (∀ L : String, Memory.windowOf rows u cutoff ≠ [] →
      (∀ r ∈ Memory.windowOf rows u cutoff, r.emotion_label = L) →
      Memory.get_emotion_patterns rows u cutoff =
        ⟨(Memory.windowOf rows u cutoff).length,
         some (pyRound 2 (((Memory.windowOf rows u cutoff).map (fun r => r.confidence)).sum /
           (Memory.windowOf rows u cutoff).length)),
         [(L, ⟨(Memory.windowOf rows u cutoff).length, 100,
            pyRound 2 (((Memory.windowOf rows u cutoff).map (fun r => r.confidence)).sum /
              (Memory.windowOf rows u cutoff).length)⟩)]⟩) ∧
    ((Memory.get_emotion_patterns_sheets rows u cutoff).total_entries ≤ 1000) ∧
    ((rows.filter (fun r => r.user_id == u)).length ≤ 1000 →
      (Memory.windowOf rows u cutoff = [] →
        Memory.get_emotion_patterns_sheets rows u cutoff = ⟨0, none, []⟩) ∧
      (∀ L : String, Memory.windowOf rows u cutoff ≠ [] →
        (∀ r ∈ Memory.windowOf rows u cutoff, r.emotion_label = L) →
        Memory.get_emotion_patterns_sheets rows u cutoff =
          ⟨(Memory.windowOf rows u cutoff).length,
           some (pyRound 2 (((Memory.windowOf rows u cutoff).map (fun r => r.confidence)).sum /
             (Memory.windowOf rows u cutoff).length)),
           [(L, ⟨(Memory.windowOf rows u cutoff).length, 100,
              pyRound 2 (((Memory.windowOf rows u cutoff).map (fun r => r.confidence)).sum /
                (Memory.windowOf rows u cutoff).length)⟩)]⟩)) := by
  obtain ⟨h1, h2, h3⟩ := C6_patterns rows u cutoff
  refine ⟨rfl, h1, h2, h3, ?_, ?_⟩
  · show (Memory.aggregate_patterns ((Memory.get_from_sheets rows u 1000).filter
      (fun r => Memory.tsGe r.timestamp cutoff))).total_entries ≤ 1000
    refine le_trans (aggregate_total_le _) (le_trans (List.length_filter_le _ _) ?_)
    exact List.length_take_le _ _
  · intro hcap
    have hperm1 := List.mergeSort_perm (rows.filter (fun r => r.user_id == u))
      (fun a b => Memory.tsGe a.timestamp b.timestamp)
    have htake : Memory.get_from_sheets rows u 1000 =
        (rows.filter (fun r => r.user_id == u)).mergeSort
          (fun a b => Memory.tsGe a.timestamp b.timestamp) := by
      unfold Memory.get_from_sheets
      exact List.take_of_length_le (by rw [hperm1.length_eq]; exact hcap)
    have hcomb : (rows.filter (fun r => r.user_id == u)).filter
        (fun r => Memory.tsGe r.timestamp cutoff) = Memory.windowOf rows u cutoff := by
      unfold Memory.windowOf
      rw [List.filter_filter]
      exact List.filter_congr (fun x _ => Bool.and_comm _ _)
    have hpermS : ((Memory.get_from_sheets rows u 1000).filter
        (fun r => Memory.tsGe r.timestamp cutoff)).Perm (Memory.windowOf rows u cutoff) := by
      rw [htake, ← hcomb]
      exact hperm1.filter _
    constructor
    · intro hW
      exact aggregate_empty_of_perm _ _ hpermS hW
    · intro L hne hall
      exact aggregate_single_label _ _ hpermS L hne hall

/-- Witness for C6 at a concrete store of at most 1000 records per user: both
backends report the single in-window label of "alice" with frequency 2 and
percentage 100, over a window of length 2. -/
theorem C6_patterns_by_backend_witness :
    Memory.get_emotion_patterns rowsC6 "alice" "2024-01-01T00:00:00" =
      ⟨(Memory.windowOf rowsC6 "alice" "2024-01-01T00:00:00").length,
       some (pyRound 2
         (((Memory.windowOf rowsC6 "alice" "2024-01-01T00:00:00").map
             (fun r => r.confidence)).sum /
           (Memory.windowOf rowsC6 "alice" "2024-01-01T00:00:00").length)),
       [("negative-sadness",
         ⟨(Memory.windowOf rowsC6 "alice" "2024-01-01T00:00:00").length, 100,
          pyRound 2
            (((Memory.windowOf rowsC6 "alice" "2024-01-01T00:00:00").map
                (fun r => r.confidence)).sum /
              (Memory.windowOf rowsC6 "alice" "2024-01-01T00:00:00").length)⟩)]⟩ ∧
    Memory.get_emotion_patterns_sheets rowsC6 "alice" "2024-01-01T00:00:00" =
      ⟨(Memory.windowOf rowsC6 "alice" "2024-01-01T00:00:00").length,
       some (pyRound 2
         (((Memory.windowOf rowsC6 "alice" "2024-01-01T00:00:00").map
             (fun r => r.confidence)).sum /
           (Memory.windowOf rowsC6 "alice" "2024-01-01T00:00:00").length)),
       [("negative-sadness",
         ⟨(Memory.windowOf rowsC6 "alice" "2024-01-01T00:00:00").length, 100,
          pyRound 2
            (((Memory.windowOf rowsC6 "alice" "2024-01-01T00:00:00").map
                (fun r => r.confidence)).sum /
              (Memory.windowOf rowsC6 "alice" "2024-01-01T00:00:00").length)⟩)]⟩ ∧
    (Memory.windowOf rowsC6 "alice" "2024-01-01T00:00:00").length = 2 :=
  ⟨(C6_patterns_by_backend rowsC6 "alice" "2024-01-01T00:00:00").2.2.2.1
     "negative-sadness" (by decide) (by decide),
   ((C6_patterns_by_backend rowsC6 "alice" "2024-01-01T00:00:00").2.2.2.2.2
     (by decide)).2 "negative-sadness" (by decide) (by decide),
   by decide⟩

/-- Claim C9: per-user isolation of the memory store.  Every record returned by
`recent(limit)` and every record in the window `patterns(days)` counts has the
manager's user id, and a record appended through a manager for a different user
leaves the user's `recent` and `patterns` outputs unchanged. -/
theorem C9_user_isolation (rows : List Memory.Row) (u u' : String) (limit : Nat)
    (cutoff ts emo : String) (conf : Option ℚ) (msg resp sess : Option String) :
    (∀ r ∈ Memory.get_recent_emotions rows u limit, r.user_id = u) ∧
    (∀ r ∈ Memory.windowOf rows u cutoff, r.user_id = u) ∧
    (u' ≠ u →
      Memory.get_recent_emotions (Memory.add_to_sqlite rows u' ts emo conf msg resp sess)
          u limit =
        Memory.get_recent_emotions rows u limit ∧
      Memory.get_emotion_patterns (Memory.add_to_sqlite rows u' ts emo conf msg resp sess)
          u cutoff =
        Memory.get_emotion_patterns rows u cutoff) := by
  have hfilter_eq : ∀ p : Memory.Row → Bool,
      p ⟨u', ts, emo, Memory.pyOrHalf conf, msg, resp, sess⟩ = false →
      (Memory.add_to_sqlite rows u' ts emo conf msg resp sess).filter p = rows.filter p := by
    intro p hp
    unfold Memory.add_to_sqlite
    rw [List.filter_append]
    simp [hp]
  refine ⟨?_, ?_, ?_⟩
  · intro r hr
    unfold Memory.get_recent_emotions at hr
    have hr2 := List.take_subset _ _ hr
    have hr3 := (List.mergeSort_perm _ _).mem_iff.mp hr2
    have hb := (List.mem_filter.mp hr3).2
    simpa [beq_iff_eq] using hb
  · intro r hr
    unfold Memory.windowOf at hr
    have hb := ((Bool.and_eq_true _ _).mp (List.mem_filter.mp hr).2).1
    simpa [beq_iff_eq] using hb
  · intro hne
    have hu : ((⟨u', ts, emo, Memory.pyOrHalf conf, msg, resp, sess⟩ : Memory.Row).user_id
        == u) = false := by
      simp only [beq_eq_false_iff_ne, ne_eq]
      exact hne
    constructor
    · unfold Memory.get_recent_emotions
      rw [hfilter_eq _ hu]
    · have hw : Memory.windowOf (Memory.add_to_sqlite rows u' ts emo conf msg resp sess)
          u cutoff = Memory.windowOf rows u cutoff := by
        unfold Memory.windowOf
        refine hfilter_eq _ ?_
        rw [hu]
        rfl
      simp only [Memory.get_emotion_patterns]
      rw [hw]

/-- Witness for C9: appending a record for "bob" leaves "alice"'s `recent` and
`patterns` outputs unchanged. -/
theorem C9_user_isolation_witness :
    Memory.get_recent_emotions
        (Memory.add_to_sqlite rowsC9 "bob" "2024-01-03T00:00:00" "positive-joy" (some 0.9)
          none none none) "alice" 5 =
      Memory.get_recent_emotions rowsC9 "alice" 5 ∧
    Memory.get_emotion_patterns
        (Memory.add_to_sqlite rowsC9 "bob" "2024-01-03T00:00:00" "positive-joy" (some 0.9)
          none none none) "alice" "2024-01-01T00:00:00" =
      Memory.get_emotion_patterns rowsC9 "alice" "2024-01-01T00:00:00" :=
  (C9_user_isolation rowsC9 "alice" "bob" 5 "2024-01-01T00:00:00" "2024-01-03T00:00:00"
    "positive-joy" (some 0.9) none none none).2.2 (by decide)

theorem pySplit_ne_nil : ∀ l, RespGen.pySplit l ≠ [] := by
  intro l
  induction l using RespGen.pySplit.induct with
  | case1 => simp [RespGen.pySplit]
  | case2 c => simp [RespGen.pySplit]
  | case3 c d rest h ih => simp [RespGen.pySplit, h]
  | case4 c d rest h ih =>
    simp only [RespGen.pySplit, if_neg h]
    cases hsp : RespGen.pySplit (d :: rest) with
    | nil => exact absurd hsp ih
    | cons p ps => simp

theorem pyJoin_cons_cons (c : Char) (p : List Char) (qs : List (List Char)) :
    RespGen.pyJoin ((c :: p) :: qs) = c :: RespGen.pyJoin (p :: qs) := by
  cases qs <;> simp [RespGen.pyJoin]

theorem pySplit_exists_cons (l : List Char) :
    ∃ p ps, RespGen.pySplit l = p :: ps := by
  cases hx : RespGen.pySplit l with
  | nil => exact absurd hx (pySplit_ne_nil l)
  | cons p ps => exact ⟨p, ps, rfl⟩

theorem joinTake_pre : ∀ (l : List Char) (n : Nat),
    RespGen.pyJoin ((RespGen.pySplit l).take n) <+: l := by
  intro l
  induction l using RespGen.pySplit.induct with
  | case1 =>
    intro n
    cases n <;> simp [RespGen.pySplit, RespGen.pyJoin]
  | case2 c =>
    intro n
    cases n <;> simp [RespGen.pySplit, RespGen.pyJoin]
  | case3 c d rest h ih =>
    obtain ⟨rfl, rfl⟩ := h
    have hsimp : RespGen.pySplit ('.' :: ' ' :: rest) = [] :: RespGen.pySplit rest := by
      simp [RespGen.pySplit]
    intro n
    match n with
    | 0 => simp [RespGen.pyJoin]
    | 1 =>
      rw [hsimp, List.take_succ_cons, List.take_zero]
      simp [RespGen.pyJoin]
    | n' + 2 =>
      obtain ⟨p, ps, hps⟩ := pySplit_exists_cons rest
      have hih := ih (n' + 1)
      rw [hps, List.take_succ_cons] at hih
      rw [hsimp, hps, List.take_succ_cons, List.take_succ_cons]
      have hjoin : RespGen.pyJoin ([] :: p :: (ps.take n')) =
          '.' :: ' ' :: RespGen.pyJoin (p :: ps.take n') := by
        simp [RespGen.pyJoin]
      rw [hjoin, List.cons_prefix_cons]
      refine ⟨rfl, ?_⟩
      rw [List.cons_prefix_cons]
      exact ⟨rfl, hih⟩
  | case4 c d rest h ih =>
    intro n
    obtain ⟨p, ps, hps⟩ := pySplit_exists_cons (d :: rest)
    have hsimp : RespGen.pySplit (c :: d :: rest) = (c :: p) :: ps := by
      simp only [RespGen.pySplit, if_neg h, hps, List.modifyHead]
    match n with
    | 0 => simp [RespGen.pyJoin]
    | n' + 1 =>
      have hih := ih (n' + 1)
      rw [hps, List.take_succ_cons] at hih
      rw [hsimp, List.take_succ_cons, pyJoin_cons_cons, List.cons_prefix_cons]
      exact ⟨rfl, hih⟩

theorem pre_sub {l₁ l₂ : List Char} (h : l₁ <+: l₂) : l₁ <:+: l₂ := by
  obtain ⟨t, ht⟩ := h
  exact ⟨[], t, by simpa using ht⟩

theorem pyStrip_sub (l : List Char) : pyStrip l <:+: l := by
  unfold pyStrip
  obtain ⟨t, ht⟩ := List.rdropWhile_prefix pyWs (l.dropWhile pyWs)
  obtain ⟨s, hs⟩ := List.dropWhile_suffix (l := l) pyWs
  exact ⟨s, t, by rw [List.append_assoc, ht]; exact hs⟩

theorem lower_keeps_sub {l₁ l₂ : List Char} (h : l₁ <:+: l₂) :
    lowerL l₁ <:+: lowerL l₂ := by
  obtain ⟨s, t, rfl⟩ := h
  exact ⟨lowerL s, lowerL t, by simp [lowerL]⟩

theorem sub_of_sub_snoc {p s : List Char} {c : Char} (h : p <:+: s ++ [c]) (hc : c ∉ p) :
    p <:+: s := by
  obtain ⟨t, u, htu⟩ := h
  rcases List.eq_nil_or_concat u with rfl | ⟨u', b, rfl⟩
  · rcases List.eq_nil_or_concat p with rfl | ⟨p', a, rfl⟩
    · exact ⟨s, [], by simp⟩
    · rw [List.append_nil, List.concat_eq_append] at htu
      have h2 : (t ++ p') ++ [a] = s ++ [c] := by
        rw [← htu]
        simp
      have h3 := List.append_inj' h2 rfl
      have hac : a = c := by simpa using h3.2
      exact absurd (by simp [List.concat_eq_append, hac] : c ∈ p'.concat a) hc
  · rw [List.concat_eq_append] at htu
    have h2 : (t ++ p ++ u') ++ [b] = s ++ [c] := by
      rw [← htu]
      simp
    have h3 := List.append_inj' h2 rfl
    exact ⟨t, u', h3.1⟩

theorem lower_trunc_decomp (l : List Char) :
    lowerL (RespGen.truncTwo l) =
      lowerL (RespGen.pyJoin ((RespGen.pySplit l).take 2)) ++ ['.'] := by
  unfold RespGen.truncTwo lowerL
  rw [List.map_append]
  simp [show Char.toLower '.' = '.' from by decide]

theorem phrase_free_all : ∀ t ∈ RespGen.templates_sadness ++ RespGen.templates_anger ++
    RespGen.templates_fear ++ RespGen.templates_joy ++ RespGen.templates_neutral,
    RespGen.containsAnyPhrase t = false := by decide

theorem templates_phrase_free (emo : String) (k : Nat) :
    RespGen.containsAnyPhrase (RespGen.get_template_response emo k) = false := by
  have hmem := template_mem emo k
  have hc := templates_cases emo
  apply phrase_free_all
  simp only [List.mem_cons, List.not_mem_nil, or_false] at hc
  rcases hc with h | h | h | h | h <;> rw [h] at hmem <;> simp [List.mem_append, hmem]

/-- Claim C3 counterexample: the 206-character result "A. B. xxx…x" passes
validation (trimmed length 206 ≥ 10, no denylisted phrase), but the
two-sentence truncation then returns "A. B." — a response of 5 characters,
under the claimed 10-character floor, and not a member of the canned template
set. -/
theorem C3_counterexample :
    10 ≤ (pyStrip longC3bad.data).length ∧
    RespGen.containsAnyPhrase longC3bad = false ∧
    200 < longC3bad.length ∧
    RespGen.validate_and_enhance_response longC3bad "sadness" 0 = "A. B." ∧
    (RespGen.validate_and_enhance_response longC3bad "sadness" 0).length < 10 ∧
    ¬ RespGen.validate_and_enhance_response longC3bad "sadness" 0 ∈
        RespGen.response_templates "sadness" :=
  ⟨by decide, by decide, by decide, by decide, by decide, by decide⟩

/-- Claim C3 (amended): a result that is empty, has trimmed length under 10, or
contains a denylisted phrase is discarded and replaced by a member of the fixed
canned-template set for the primary emotion, and no returned response ever
contains a denylisted phrase; a result that passes those checks and exceeds 200
characters is truncated to its first two sentences (split on ". ", joined and
closed with "."), and this truncated response can itself be shorter than 10
characters, since the length check precedes truncation. -/
theorem C3_validate (resp emo : String) (k : Nat) :
    RespGen.containsAnyPhrase (RespGen.validate_and_enhance_response resp emo k) = false ∧
    ((resp = "" ∨ (pyStrip resp.data).length < 10 ∨ RespGen.containsAnyPhrase resp = true) →
      RespGen.validate_and_enhance_response resp emo k ∈ RespGen.response_templates emo) ∧
    (resp ≠ "" → ¬ (pyStrip resp.data).length < 10 →
      RespGen.containsAnyPhrase resp = false → 200 < resp.length →
      RespGen.validate_and_enhance_response resp emo k =
        String.mk (pyStrip (RespGen.truncTwo resp.data))) := by
  refine ⟨?_, ?_, ?_⟩
  · by_cases h1 : (resp == "" || decide ((pyStrip resp.data).length < 10)) = true
    · unfold RespGen.validate_and_enhance_response
      rw [if_pos h1]
      exact templates_phrase_free emo k
    · by_cases h2 : RespGen.containsAnyPhrase resp = true
      · unfold RespGen.validate_and_enhance_response
        rw [if_neg h1, if_pos h2]
        exact templates_phrase_free emo k
      · have h2f : RespGen.containsAnyPhrase resp = false := by
          cases hx : RespGen.containsAnyPhrase resp
          · rfl
          · exact absurd hx h2
        have hresp : ∀ p ∈ RespGen.inappropriate_phrases,
            ¬ p.data <:+: lowerL resp.data := by
          intro p hp hcon
          unfold RespGen.containsAnyPhrase at h2f
          apply List.any_eq_false.mp h2f p hp
          simp only [containsSub, decide_eq_true_eq]
          exact hcon
        have hdots : ∀ p ∈ RespGen.inappropriate_phrases, '.' ∉ p.data := by decide
        unfold RespGen.validate_and_enhance_response
        rw [if_neg h1, if_neg h2]
        by_cases h3 : 200 < resp.length
        · rw [if_pos h3]
          unfold RespGen.containsAnyPhrase
          rw [List.any_eq_false]
          intro p hp
          simp only [containsSub, decide_eq_true_eq]
          intro hcon
          have hcon2 : p.data <:+: lowerL (pyStrip (RespGen.truncTwo resp.data)) := hcon
          have hB : p.data <:+: lowerL (RespGen.truncTwo resp.data) :=
            hcon2.trans (lower_keeps_sub (pyStrip_sub (RespGen.truncTwo resp.data)))
          rw [lower_trunc_decomp] at hB
          have hD := sub_of_sub_snoc hB (hdots p hp)
          have hF : p.data <:+: lowerL resp.data :=
            hD.trans (lower_keeps_sub (pre_sub (joinTake_pre resp.data 2)))
          exact hresp p hp hF
        · rw [if_neg h3]
          unfold RespGen.containsAnyPhrase
          rw [List.any_eq_false]
          intro p hp
          simp only [containsSub, decide_eq_true_eq]
          intro hcon
          have hcon2 : p.data <:+: lowerL (pyStrip resp.data) := hcon
          exact hresp p hp (hcon2.trans (lower_keeps_sub (pyStrip_sub resp.data)))
  · intro h
    unfold RespGen.validate_and_enhance_response
    by_cases h1 : (resp == "" || decide ((pyStrip resp.data).length < 10)) = true
    · rw [if_pos h1]
      exact template_mem emo k
    · have h2 : RespGen.containsAnyPhrase resp = true := by
        rcases h with h | h | h
        · exact absurd (by simp [h]) h1
        · exact absurd (by simp [h]) h1
        · exact h
      rw [if_neg h1, if_pos h2]
      exact template_mem emo k
  · intro hne hlen hph hlong
    unfold RespGen.validate_and_enhance_response
    rw [if_neg (by simp [hne, hlen]), if_neg (by simp [hph]), if_pos hlong]

/-- Witness for C3: a 2-character result is replaced by a sadness template, and
a benign 201-character result is truncated as described. -/
theorem C3_validate_witness :
    RespGen.validate_and_enhance_response "hi" "sadness" 1 ∈
      RespGen.response_templates "sadness" ∧
    RespGen.validate_and_enhance_response longC3ok "anger" 0 =
      String.mk (pyStrip (RespGen.truncTwo longC3ok.data)) :=
  ⟨(C3_validate "hi" "sadness" 1).2.1 (Or.inr (Or.inl (by decide))),
   (C3_validate longC3ok "anger" 0).2.2 (by decide) (by decide) (by decide) (by decide)⟩
